import Mathlib

/-
Verification development for the SMITH framework core.

Shallow embedding of the orchestration/execution machinery:
  * smith/runtime/policies.py       (ExecutionPolicy, AllowListPolicy, DenyAllPolicy)
  * smith/tools/files.py            (FilesTool._resolve — sandbox path resolution)
  * smith/tools/shell.py            (ShellTool.run — policy-gated shell execution)
  * smith/core/fsm.py               (FiniteStateMachine)
  * smith_tools/plan_executor.py    (PlanExecutor.execute_step / _execute_step_logic)
  * smith_tools/human_feedback_tool.py (HumanFeedbackTool)
  * smith_tools/dynamic_planner.py  (DynamicPlanner state)
  * interactive_cockpit.py          (run_agent_in_thread — the orchestrator worker loop)

External collaborators (subprocesses, the LLM gateway, code_ops, the
operator's terminal) are modelled as explicit environment parameters, so
every definition is executable and the loop's event stream is a concrete
list of events.
-/

/- ===== smith/runtime/policies.py ===== -/

/-- The execution-policy hierarchy of policies.py: `AllowListPolicy`
(constructed from a sequence of allowed binaries, stored as a set) and
`DenyAllPolicy`.  Set membership is modelled by `List.contains`. -/
inductive ExecutionPolicy
  | allowList (allowed : List String)
  | denyAll
deriving Repr

/-- `AllowListPolicy.is_allowed` (policies.py lines 23-24):
`return False if not command else command[0] in self._allowed`;
`DenyAllPolicy.is_allowed` (lines 30-31): `return False`. -/
def ExecutionPolicy.is_allowed : ExecutionPolicy → List String → Bool
  | .allowList allowed, command =>
    match command with
    | [] => false
    | c :: _ => allowed.contains c
  | .denyAll, _ => false

/- ===== POSIX path model (for sandbox.py / files.py) =====

An absolute path is a list of components below the filesystem root
(so "/home/user" is ["home", "user"]).  `Path.resolve()` on a
symlink-free tree normalizes "." and ".." lexically; ".." at the root
stays at the root. -/

/-- One step of lexical path normalization. -/
def normalizeStep (acc : List String) (c : String) : List String :=
  if c = "." then acc
  else if c = ".." then acc.dropLast
  else acc ++ [c]

/-- Lexical canonicalization of a component list, as `Path.resolve()`
performs on a symlink-free tree. -/
def normalizePath (comps : List String) : List String :=
  comps.foldl normalizeStep []

/-- A path already in canonical form (what `self._root.resolve()` returns). -/
def NormalizedPath (l : List String) : Prop := normalizePath l = l

/-- Split a character list at every occurrence of `sep`, keeping empty
pieces — the semantics of Python's `str.split(sep)` (and of
`String.splitOn`, restated structurally so it evaluates in the kernel). -/
def splitCharList (sep : Char) : List Char → List (List Char)
  | [] => [[]]
  | c :: rest =>
    match splitCharList sep rest with
    | [] => if c = sep then [[], [c]] else [[c]]
    | h :: t => if c = sep then [] :: h :: t else (c :: h) :: t

/-- Split a string at every occurrence of `sep`. -/
def splitOnChar (sep : Char) (s : String) : List String :=
  (splitCharList sep s.toList).map List.asString

/-- Split a relative path string on "/" into components. -/
def splitPath (s : String) : List String := splitOnChar '/' s

/-- `FilesTool._resolve` (files.py lines 16-22):
`target = (self._root / relative_path).resolve()` followed by
`target.relative_to(self._root)`, which succeeds exactly when the root is
a prefix of (equal to or an ancestor of) the canonical target; on failure
it raises `SmithError("Attempt to escape sandbox root")`. -/
def FilesTool.resolve (root : List String) (relative_path : List String) :
    Except String (List String) :=
  if root.isPrefixOf (normalizePath (root ++ relative_path)) then
    Except.ok (normalizePath (root ++ relative_path))
  else Except.error "Attempt to escape sandbox root"

/- ===== smith/tools/shell.py ===== -/

/-- Outcome of `subprocess.run`. -/
structure CompletedProcess where
  returncode : Int
  stdout : String := ""
  stderr : String := ""
deriving DecidableEq, Repr

/-- One call made to `subprocess.run` by ShellTool: the argument vector,
the working directory and the timeout passed along. -/
structure SubprocCall where
  args : List String
  cwd : List String
  timeout : Nat
deriving DecidableEq, Repr

/-- The `command: Sequence[str] | str` parameter of `ShellTool.run`. -/
inductive ShellCommand
  | str (s : String)
  | args (l : List String)
deriving DecidableEq, Repr

/-- `shlex.split`, modelled for command lines without quoting or escape
characters (the only shape that occurs in this development): split on
spaces, dropping empty tokens. -/
def shlexSplit (s : String) : List String :=
  (splitOnChar ' ' s).filter (fun t => t ≠ "")

/-- The argument-vector computation at the top of `ShellTool.run`
(shell.py lines 29-32): a string is `shlex.split`; a sequence is taken
as given (each part stringified). -/
def shellCommandArgs : ShellCommand → List String
  | .str s => shlexSplit s
  | .args l => l

/-- `ShellTool`: holds the resolved sandbox root and the policy
(shell.py lines 17-19). -/
structure ShellTool where
  sandbox_root : List String
  policy : ExecutionPolicy

/-- `ShellTool.run` (shell.py lines 21-46).  The external subprocess is an
oracle `subproc`; the returned list records every `subprocess.run` call
actually made (with its cwd and timeout), so "never executed" is a
statement about that trace.  An empty command and a policy rejection both
raise `SmithError` before any subprocess call.  The `timeout` parameter
defaults to 60.0 in the source. -/
def ShellTool.run (t : ShellTool) (subproc : SubprocCall → CompletedProcess)
    (command : ShellCommand) (timeout : Nat) :
    Except String CompletedProcess × List SubprocCall :=
  let command_args := shellCommandArgs command
  if command_args = [] then
    (Except.error "Shell command cannot be empty", [])
  else if t.policy.is_allowed command_args = false then
    (Except.error "Command is rejected by the execution policy", [])
  else
    let call : SubprocCall :=
      { args := command_args, cwd := t.sandbox_root, timeout := timeout }
    (Except.ok (subproc call), [call])

/- ===== smith/core/fsm.py ===== -/

/-- `State` (fsm.py lines 11-16). -/
structure State where
  name : String
  description : Option String := none
deriving DecidableEq, Repr

/-- `Transition` (fsm.py lines 19-25).  The Python guard receives the
machine itself; the only machine state observable to a guard that is not
fixed at construction is the current state, so the guard is modelled as a
predicate on the current state's name (the repository never installs a
guard: cli.py constructs transitions with the default `None`). -/
structure Transition where
  source : State
  target : State
  guard : Option (String → Bool) := none

/-- `FiniteStateMachine` (fsm.py lines 28-49): registered states, the
transition table, and the current state.  The `_states` dict and the
`_transitions` dict-of-lists are modelled by the plain lists with lookup
by name (the constructor's registration checks are not needed by the
claims). -/
structure FiniteStateMachine where
  states : List State
  transitions : List Transition
  current : State

/-- `FiniteStateMachine.can_transition` (fsm.py lines 57-65): scan the
transitions whose source is the current state; allowed iff one of them
targets `target` and its guard (if any) passes. -/
def FiniteStateMachine.can_transition (m : FiniteStateMachine) (target : String) : Bool :=
  (m.transitions.filter (fun t => t.source.name == m.current.name)).any
    (fun t => t.target.name == target &&
      (match t.guard with
       | none => true
       | some g => g m.current.name))

/-- `FiniteStateMachine.transition` (fsm.py lines 67-75): raise
`SmithError("Invalid transition from ... to ...")` when `can_transition`
fails, otherwise move to the registered state of that name.  The machine
component of the result is the (possibly updated) object; on any error
the object is returned unchanged, since Python raises before the
assignment to `self._current`. -/
def FiniteStateMachine.transition (m : FiniteStateMachine) (target : String) :
    FiniteStateMachine × Except String State :=
  if m.can_transition target = true then
    match m.states.find? (fun s => s.name == target) with
    | some st => ({ m with current := st }, Except.ok st)
    | none => (m, Except.error ("KeyError: " ++ target))
  else
    (m, Except.error ("Invalid transition from " ++ m.current.name ++ " to " ++ target))

def pendingState : State := { name := "pending" }

def runningState : State := { name := "running" }

def succeededState : State := { name := "succeeded" }

def failedState : State := { name := "failed" }

/-- Modelled from the spec: the step-lifecycle FSM instance of §4.1
(states `pending`, `running`, `succeeded`, `failed`; transitions
`pending→running`, `running→succeeded`, `running→failed`; terminal states
have no outgoing transitions) is described by the spec but not
constructed anywhere under src/ — only the generic engine (fsm.py) and an
unrelated idle/executing/done instance (cli.py) appear there. -/
def stepLifecycleTransitions : List Transition :=
  [ { source := pendingState, target := runningState },
    { source := runningState, target := succeededState },
    { source := runningState, target := failedState } ]

/-- The step-lifecycle machine positioned at a given current state. -/
def stepLifecycleAt (s : State) : FiniteStateMachine :=
  { states := [pendingState, runningState, succeededState, failedState],
    transitions := stepLifecycleTransitions,
    current := s }

/- ===== smith_tools/human_feedback_tool.py ===== -/

/-- Python `str.lower()`, restated structurally so it evaluates in the
kernel (ASCII lowering, as `str.lower` performs on the strings involved
here). -/
def strLower (s : String) : String := (s.toList.map Char.toLower).asString

/-- Python `str.strip()`: drop leading and trailing whitespace. -/
def strTrim (s : String) : String :=
  ((s.toList.dropWhile Char.isWhitespace).reverse.dropWhile Char.isWhitespace).reverse.asString

/-- `HumanFeedbackTool` instance attributes set by `__init__`. -/
structure HumanFeedbackTool where
  auto_confirm : Option Bool
  interactive : Bool
deriving DecidableEq, Repr

/-- `HumanFeedbackTool.__init__` (human_feedback_tool.py lines 49-61):
`envValue` is `os.getenv("SMITH_AUTO_CONFIRM")`.  If set, any value other
than "false" (case-insensitive) means auto-confirm True and interactive
mode off; if unset, the `auto_confirm` parameter (default None) is stored
and interactive mode is on exactly when it is None. -/
def HumanFeedbackTool.init (envValue : Option String) (auto_confirm : Option Bool) :
    HumanFeedbackTool :=
  match envValue with
  | some v => { auto_confirm := some (strLower v != "false"), interactive := false }
  | none => { auto_confirm := auto_confirm, interactive := auto_confirm.isNone }

/-- `HumanFeedbackTool.request_confirmation` (lines 63-96).  `inputLine`
models the `input()` call: `Except.error ()` is an exception (no stdin),
`Except.ok raw` the line read.  Non-interactive mode never consults it.
Interactive mode strips and lowercases the response; empty means yes,
otherwise the answer is whether the first character is 'y'. -/
def HumanFeedbackTool.request_confirmation (t : HumanFeedbackTool) (prompt : String)
    (inputLine : Except Unit String) : Bool :=
  if t.interactive = false then
    match t.auto_confirm with
    | some b => b
    | none => true
  else
    match inputLine with
    | Except.error _ => false
    | Except.ok raw =>
      let response := strLower (strTrim raw)
      match response.toList with
      | [] => true
      | c :: _ => c = 'y'

/- ===== smith_tools/plan_executor.py ===== -/

/-- A step dictionary as produced by `DynamicPlanner._create_step_from_llm_response`
and consumed by `PlanExecutor`.  `action` and the parameter fields model
`step.get(...)` lookups: `none` is an absent key. -/
structure Step where
  id : Nat
  action : Option String := none
  description : String := ""
  question : Option String := none
  operation : Option String := none
  tool : Option String := none
  command : Option String := none
  old_lib : Option String := none
  new_lib : Option String := none
  package : Option String := none
  version : Option String := none
  path : Option String := none
  framework : Option String := none
  file : Option String := none
deriving DecidableEq, Repr

/-- A result dictionary.  Absent string keys are modelled as `""`: the
only reader that distinguishes them is the `err_msg` computation in the
cockpit, where `result.get("error", result.get("stderr", "")) or ""`
behaves on every result the executor produces exactly like "use `error`
when non-empty, else `stderr`". -/
structure StepResult where
  status : String
  stdout : String := ""
  stderr : String := ""
  error : String := ""
  summary : String := ""
deriving DecidableEq, Repr

/-- Result of `code_ops.refactor_godobject`: a dict whose `status` may be
"failed", with an `error` message. -/
structure RefactorSummary where
  status : String := ""
  error : String := ""
deriving DecidableEq, Repr

/-- The external collaborators `PlanExecutor` calls into.  Each fallible
Python call is an `Except String` value: `Except.error e` models the call
raising an exception with message `e`.  `subprocess_run` models
`subprocess.run(command, shell=True, capture_output=True, text=True,
cwd=self.project_root)`, which returns a `CompletedProcess` (no timeout
is passed, so no `TimeoutExpired` arises from this call site). -/
structure ExecEnv where
  request_confirmation : String → Except String Bool
  replace_library : Option String → Option String → Except String String
  update_dependency : Option String → Option String → Except String String
  add_fastapi_endpoint : Option String → Option String → Except String String
  refactor_godobject : Option String → Except String RefactorSummary
  run_pytest : Except String StepResult
  run_flake8 : Except String StepResult
  run_mypy : Except String StepResult
  subprocess_run : String → CompletedProcess

/-- `step.get("question") or step.get("description")` (plan_executor.py
line 83): a missing or empty question falls back to the description. -/
def questionOf (step : Step) : String :=
  match step.question with
  | some q => if q = "" then step.description else q
  | none => step.description

/-- Render an optional string the way a Python f-string renders the value
of a missing key (`None`). -/
def optStr : Option String → String
  | some s => s
  | none => "None"

/-- `PlanExecutor._execute_step_logic` (plan_executor.py lines 71-162),
the action dispatch table.  The `if not action:` guard (line 77) treats
both a missing action key and a present empty-string action as missing
(Python falsiness), so `some ""` yields the missing-field error, not the
unknown-action one.  The second component of the result is the
trace of shell command lines passed to `subprocess.run` by the
`run_command` branch (the only branch that starts a subprocess itself).
`Except.error` models an exception escaping the method. -/
def PlanExecutor.execute_step_logic (env : ExecEnv) (step : Step) :
    Except String StepResult × List String :=
  match step.action with
  | none => (Except.ok { status := "failed", error := "Step is missing 'action' field." }, [])
  | some action =>
    if action = "" then
      (Except.ok { status := "failed", error := "Step is missing 'action' field." }, [])
    else if action = "human_feedback" then
      match env.request_confirmation (questionOf step) with
      | Except.error e => (Except.error e, [])
      | Except.ok true => (Except.ok { status := "succeeded" }, [])
      | Except.ok false =>
        (Except.ok { status := "failed", error := "Operation cancelled by user" }, [])
    else if action = "modify_code" then
      match step.operation with
      | some "replace_library" =>
        (match env.replace_library step.old_lib step.new_lib with
         | Except.error e => (Except.error e, [])
         | Except.ok summary => (Except.ok { status := "succeeded", summary := summary }, []))
      | some "update_dependency" =>
        (match env.update_dependency step.package step.version with
         | Except.error e => (Except.error e, [])
         | Except.ok summary => (Except.ok { status := "succeeded", summary := summary }, []))
      | some "add_endpoint" =>
        (match env.add_fastapi_endpoint step.path step.framework with
         | Except.error e => (Except.error e, [])
         | Except.ok summary => (Except.ok { status := "succeeded", summary := summary }, []))
      | some "refactor_godobject" =>
        (match env.refactor_godobject step.file with
         | Except.error e => (Except.error e, [])
         | Except.ok s =>
           if s.status = "failed" then
             (Except.ok { status := "failed", error := s.error }, [])
           else
             (Except.ok { status := "succeeded" }, []))
      | op =>
        (Except.ok { status := "failed",
                     error := "Unknown modify_code operation: " ++ optStr op }, [])
    else if action = "verify_code" then
      match step.tool with
      | some "pytest" => (env.run_pytest, [])
      | some "flake8" => (env.run_flake8, [])
      | some "mypy" => (env.run_mypy, [])
      | tl =>
        (Except.ok { status := "failed",
                     error := "Unknown verification tool: " ++ optStr tl }, [])
    else if action = "run_command" then
      match step.command with
      | none =>
        (Except.ok { status := "failed",
                     error := "run_command action requires a 'command'" }, [])
      | some cmd =>
        if cmd = "" then
          (Except.ok { status := "failed",
                       error := "run_command action requires a 'command'" }, [])
        else
          let result := env.subprocess_run cmd
          if result.returncode = 0 then
            (Except.ok { status := "succeeded",
                         stdout := result.stdout, stderr := result.stderr }, [cmd])
          else
            (Except.ok { status := "failed",
                         stdout := result.stdout, stderr := result.stderr,
                         error := "Command failed with exit code "
                                    ++ toString result.returncode }, [cmd])
    else
      (Except.ok { status := "failed", error := "Unknown action: " ++ action }, [])

/-- `PlanExecutor.execute_step` (plan_executor.py lines 44-69): the safe
wrapper — run the logic and turn any escaped exception into a failed
result. -/
def PlanExecutor.execute_step (env : ExecEnv) (step : Step) : StepResult × List String :=
  match PlanExecutor.execute_step_logic env step with
  | (Except.ok r, tr) => (r, tr)
  | (Except.error e, tr) =>
    ({ status := "failed", error := "Unhandled exception in executor: " ++ e }, tr)

/- ===== smith_tools/dynamic_planner.py and interactive_cockpit.py ===== -/

/-- The parsed JSON the LLM gateway returns for one step request
(`MCPGateway.generate_step`): an action plus the parameters that are
merged into the step dictionary. -/
structure LlmResp where
  action : Option String := none
  description : Option String := none
  question : Option String := none
  operation : Option String := none
  tool : Option String := none
  command : Option String := none
  old_lib : Option String := none
  new_lib : Option String := none
  package : Option String := none
  version : Option String := none
  path : Option String := none
  framework : Option String := none
  file : Option String := none
deriving DecidableEq, Repr

/-- One consultation of the external LLM gateway inside
`DynamicPlanner.get_next_step`: a parsed response (`none` when the model
returns nothing), or an exception escaping the gateway call. -/
def GatewayResult : Type := Except String (Option LlmResp)

/-- Mutable state of `DynamicPlanner` (dynamic_planner.py lines 24-32):
`_task_complete`, `_step_counter` and the result history. -/
structure PlannerState where
  task_complete : Bool := false
  step_counter : Nat := 0
  history : List StepResult := []
deriving Repr

def initialPlannerState : PlannerState := {}

/-- `DynamicPlanner.record_step_result` (lines 34-38): append to history
and mark the task complete when the recorded status is "failed".  (The
cockpit also stores the step itself under the result's "step" key; only
the status is ever read back, so the history keeps the result.) -/
def DynamicPlanner.record_step_result (p : PlannerState) (result : StepResult) : PlannerState :=
  { p with
    history := p.history ++ [result],
    task_complete := if result.status = "failed" then true else p.task_complete }

/-- `DynamicPlanner._create_step_from_llm_response` (lines 137-148):
increment the counter, use it as the id, merge the parameters into the
step dictionary, and default the description. -/
def DynamicPlanner.create_step (counter : Nat) (r : LlmResp) : Step :=
  { id := counter + 1,
    action := r.action,
    description := r.description.getD "Шаг, сгенерированный LLM.",
    question := r.question,
    operation := r.operation,
    tool := r.tool,
    command := r.command,
    old_lib := r.old_lib,
    new_lib := r.new_lib,
    package := r.package,
    version := r.version,
    path := r.path,
    framework := r.framework,
    file := r.file }

/-- The event tuples `run_agent_in_thread` pushes onto the cockpit's
queue (interactive_cockpit.py lines 194-225): `("NEW_STEP", step)`,
`("STEP_STARTED", id)`, `("STEP_FINISHED", id, status, err_msg)`, and
`("AGENT_FINISHED", status[, message])`. -/
inductive Event
  | newStep (s : Step)
  | stepStarted (id : Nat)
  | stepFinished (id : Nat) (status : String) (err : String)
  | agentFinished (status : String) (err : Option String)
deriving DecidableEq, Repr

def isAgentFinished : Event → Bool
  | .agentFinished _ _ => true
  | _ => false

/-- What the `try:` block of `run_agent_in_thread` produced: the events
and shell-command trace emitted before it returned or raised, and the
exception caught by the `except` clause, if any. -/
structure LoopResult where
  events : List Event
  shellTrace : List String
  exc : Option String
deriving DecidableEq, Repr

/-- The `while not planner.is_finished()` loop of `run_agent_in_thread`
(interactive_cockpit.py lines 186-218), with `DynamicPlanner.get_next_step`
(dynamic_planner.py lines 40-58) inlined: each iteration consumes one
gateway consultation from `oracle` (an exhausted oracle behaves like the
gateway returning nothing).  Per cycle: if the planner is finished, stop;
obtain the response (an exception escapes the loop body); `None` or a
`finish_task` action completes the task and stops; otherwise build the
step, emit `NEW_STEP` and `STEP_STARTED`, execute it, record the result,
emit `STEP_FINISHED` with the status and `err_msg` (`error` when
non-empty, else `stderr`), and halt when the status is not
"succeeded". -/
def agentLoop (env : ExecEnv) : PlannerState → List GatewayResult → LoopResult
  | _, [] => { events := [], shellTrace := [], exc := none }
  | p, entry :: rest =>
    if p.task_complete then
      { events := [], shellTrace := [], exc := none }
    else
      match entry with
      | Except.error e => { events := [], shellTrace := [], exc := some e }
      | Except.ok none => { events := [], shellTrace := [], exc := none }
      | Except.ok (some resp) =>
        if resp.action = some "finish_task" then
          { events := [], shellTrace := [], exc := none }
        else
          let step := DynamicPlanner.create_step p.step_counter resp
          let p1 : PlannerState := { p with step_counter := p.step_counter + 1 }
          let out := PlanExecutor.execute_step env step
          let result := out.1
          let p2 := DynamicPlanner.record_step_result p1 result
          let errMsg := if result.error = "" then result.stderr else result.error
          let headEvents := [Event.newStep step, Event.stepStarted step.id,
                             Event.stepFinished step.id result.status errMsg]
          if result.status = "succeeded" then
            let tail := agentLoop env p2 rest
            { events := headEvents ++ tail.events,
              shellTrace := out.2 ++ tail.shellTrace,
              exc := tail.exc }
          else
            { events := headEvents, shellTrace := out.2, exc := none }

/-- `run_agent_in_thread` (interactive_cockpit.py lines 176-225): run the
loop inside `try`; the `except` clause pushes
`("AGENT_FINISHED", "failed", str(exc))` when an exception escaped, and
the `finally` clause then pushes `("AGENT_FINISHED", "succeeded")`
unconditionally.  Returns the full event stream pushed onto the queue
and the trace of shell commands executed. -/
def run_agent_in_thread (env : ExecEnv) (oracle : List GatewayResult) :
    List Event × List String :=
  let res := agentLoop env initialPlannerState oracle
  match res.exc with
  | none =>
    (res.events ++ [Event.agentFinished "succeeded" none], res.shellTrace)
  | some e =>
    (res.events ++ [Event.agentFinished "failed" (some e),
                    Event.agentFinished "succeeded" none], res.shellTrace)

/- ===== Auxiliary predicates and concrete fixtures ===== -/

/-- Substring test: some suffix of `s` starts with `pat`. -/
def containsSub (s pat : String) : Bool :=
  s.toList.tails.any (fun t => pat.toList.isPrefixOf t)

/-- Well-formedness of an event stream with respect to announcement
order, checked left to right: `ann` holds the ids already announced via
`NEW_STEP`, `st` the ids already started.  A `STEP_STARTED` id must have
been announced, a `STEP_FINISHED` id must have been announced and
started. -/
def wfEvents : List Nat → List Nat → List Event → Bool
  | _, _, [] => true
  | ann, st, Event.newStep s :: rest => wfEvents (s.id :: ann) st rest
  | ann, st, Event.stepStarted id :: rest => ann.contains id && wfEvents ann (id :: st) rest
  | ann, st, Event.stepFinished id _ _ :: rest =>
    ann.contains id && st.contains id && wfEvents ann st rest
  | ann, st, Event.agentFinished _ _ :: rest => wfEvents ann st rest

/-- An inert collaborator environment: confirmations succeed, code
operations return empty summaries, verifiers pass, and every subprocess
exits 0. -/
def stubEnv : ExecEnv :=
  { request_confirmation := fun _ => Except.ok true,
    replace_library := fun _ _ => Except.ok "",
    update_dependency := fun _ _ => Except.ok "",
    add_fastapi_endpoint := fun _ _ => Except.ok "",
    refactor_godobject := fun _ => Except.ok {},
    run_pytest := Except.ok { status := "succeeded" },
    run_flake8 := Except.ok { status := "succeeded" },
    run_mypy := Except.ok { status := "succeeded" },
    subprocess_run := fun _ => { returncode := 0 } }

/-- Environment whose confirmation collaborator declines. -/
def declineEnv : ExecEnv :=
  { stubEnv with request_confirmation := fun _ => Except.ok false }

/-- Environment whose confirmation collaborator raises. -/
def throwingConfirmEnv : ExecEnv :=
  { stubEnv with request_confirmation := fun _ => Except.error "stdin closed" }

/-- Environment for the halt-semantics scenario: command "cmdA" and
"cmdC" exit 0, command "cmdB" exits 1. -/
def envABC : ExecEnv :=
  { stubEnv with
    subprocess_run := fun c =>
      if c = "cmdB" then { returncode := 1 } else { returncode := 0 } }

def respA : LlmResp :=
  { action := some "run_command", description := some "step A", command := some "cmdA" }

def respB : LlmResp :=
  { action := some "run_command", description := some "step B", command := some "cmdB" }

def respC : LlmResp :=
  { action := some "run_command", description := some "step C", command := some "cmdC" }

/-- Decision source producing step A (succeeds), step B (fails), then
step C (which would succeed). -/
def oracleABC : List GatewayResult :=
  [Except.ok (some respA), Except.ok (some respB), Except.ok (some respC)]

def stepA : Step := DynamicPlanner.create_step 0 respA

def stepB : Step := DynamicPlanner.create_step 1 respB

/-- A command every configured policy in the repository rejects. -/
def dangerousStep : Step :=
  { id := 1, action := some "run_command", command := some "rm -rf /" }

/-- A step whose action kind is in no dispatch table. -/
def bogusStep : Step := { id := 1, action := some "bogus" }

/-- A step whose action is present but the empty string — falsy in
Python, so `if not action:` treats it as missing. -/
def emptyActionStep : Step := { id := 1, action := some "" }

/-- A human-feedback step. -/
def feedbackStep : Step :=
  { id := 1, action := some "human_feedback", question := some "Proceed?" }

/-- A deny-all shell tool rooted at /home/user/proj. -/
def denyTool : ShellTool :=
  { sandbox_root := ["home", "user", "proj"], policy := ExecutionPolicy.denyAll }

/-- A git-only shell tool rooted at /home/user/proj. -/
def gitTool : ShellTool :=
  { sandbox_root := ["home", "user", "proj"], policy := ExecutionPolicy.allowList ["git"] }

/-- A subprocess oracle for ShellTool witnesses. -/
def stubSubproc : SubprocCall → CompletedProcess := fun _ => { returncode := 0 }

/- ===== Helper lemmas ===== -/

theorem isPrefixOf_self_append {α : Type _} [BEq α] [LawfulBEq α] :
    ∀ (l t : List α), l.isPrefixOf (l ++ t) = true := by
  intro l t
  induction l with
  | nil => simp [List.isPrefixOf]
  | cons a as ih => simp [List.isPrefixOf, ih]

theorem isPrefixOf_trans_append {α : Type _} [BEq α] :
    ∀ (l t u : List α), l.isPrefixOf t = true → l.isPrefixOf (t ++ u) = true := by
  intro l
  induction l with
  | nil => intro t u h; simp [List.isPrefixOf]
  | cons a as ih =>
    intro t u h
    cases t with
    | nil => simp [List.isPrefixOf] at h
    | cons b bs =>
      simp [List.isPrefixOf] at h ⊢
      exact ⟨h.1, ih bs u h.2⟩

theorem containsSub_of_isPrefixOf (s pat : String)
    (h : pat.toList.isPrefixOf s.toList = true) : containsSub s pat = true := by
  unfold containsSub
  rw [List.any_eq_true]
  exact ⟨s.toList, by simp [List.mem_tails], h⟩

theorem containsSub_string_append (pat mid e : String)
    (h : pat.toList.isPrefixOf mid.toList = true) :
    containsSub (mid ++ e) pat = true := by
  apply containsSub_of_isPrefixOf
  have hdata : (mid ++ e).toList = mid.toList ++ e.toList := by
    simp [String.toList]
  rw [hdata]
  exact isPrefixOf_trans_append _ _ _ h

/- ===== Claim theorems ===== -/

/-- C1 (code bug): the spec requires that every run's event stream
contain exactly one `AgentFinished`, and that it be the last event, also
when an exception escapes the loop body.  In the code, the `except`
clause of `run_agent_in_thread` pushes `("AGENT_FINISHED", "failed",
message)` and the `finally` clause then unconditionally pushes
`("AGENT_FINISHED", "succeeded")`, so a run whose first gateway
consultation raises pushes two `AgentFinished` events — the second
claiming success. -/
theorem agent_finished_duplicated_on_exception :
    (run_agent_in_thread stubEnv [Except.error "gateway unavailable"]).1
      = [Event.agentFinished "failed" (some "gateway unavailable"),
         Event.agentFinished "succeeded" none] ∧
    ((run_agent_in_thread stubEnv [Except.error "gateway unavailable"]).1.countP
        (fun e => isAgentFinished e)) = 2 := by
  constructor
  · decide
  · decide

/-- C2 (code bug): with a decision source producing step A (succeeds),
step B (fails) and step C (would succeed), the loop does execute A and B
only and never announces C — but the terminal `AgentFinished` event it
emits carries status "succeeded", not "failed", because the `finally`
clause of `run_agent_in_thread` always pushes
`("AGENT_FINISHED", "succeeded")` after the halt. -/
theorem halt_after_failure_reports_succeeded :
    (run_agent_in_thread envABC oracleABC).1
      = [Event.newStep stepA, Event.stepStarted 1,
         Event.stepFinished 1 "succeeded" "",
         Event.newStep stepB, Event.stepStarted 2,
         Event.stepFinished 2 "failed" "Command failed with exit code 1",
         Event.agentFinished "succeeded" none] ∧
    (run_agent_in_thread envABC oracleABC).2 = ["cmdA", "cmdB"] := by
  constructor
  · decide
  · decide

/-- C3 (counterexample): the `run_command` handler that the orchestrator
actually dispatches through (`PlanExecutor._execute_step_logic`) starts
the subprocess without consulting any policy: it executes "rm -rf /",
a command that both configured policy kinds reject, and reports
success. -/
theorem run_command_bypasses_policy :
    (PlanExecutor.execute_step stubEnv dangerousStep).2 = ["rm -rf /"] ∧
    ExecutionPolicy.denyAll.is_allowed (shlexSplit "rm -rf /") = false ∧
    (ExecutionPolicy.allowList ["git"]).is_allowed (shlexSplit "rm -rf /") = false ∧
    (PlanExecutor.execute_step stubEnv dangerousStep).1.status = "succeeded" := by
  refine ⟨by decide, by decide, by decide, by decide⟩

/-- C3 (amended): it is `ShellTool.run` — not the PlanExecutor dispatch
path — that splits/validates the command line, checks
`Policy.is_allowed` before executing, and runs every subprocess it does
start with the caller's bounded timeout inside the sandbox root; a
command the policy rejects is never executed by it. -/
theorem shelltool_run_checks_policy (t : ShellTool) (subproc : SubprocCall → CompletedProcess)
    (command : ShellCommand) (timeout : Nat) :
    (t.policy.is_allowed (shellCommandArgs command) = false →
      (∃ e, (t.run subproc command timeout).1 = Except.error e) ∧
      (t.run subproc command timeout).2 = []) ∧
    (∀ call ∈ (t.run subproc command timeout).2,
      t.policy.is_allowed call.args = true ∧
      call.args = shellCommandArgs command ∧
      call.cwd = t.sandbox_root ∧
      call.timeout = timeout) := by
  unfold ShellTool.run
  by_cases hempty : shellCommandArgs command = []
  · simp [hempty]
  · by_cases hpol : t.policy.is_allowed (shellCommandArgs command) = false
    · simp [hempty, hpol]
    · simp at hpol
      simp [hempty, hpol]

/-- Witness for the C3 amended theorem: the deny-all tool refuses
"rm -rf /" and starts no subprocess; the git-only tool runs
"git status" as one subprocess call, allowed by the policy, in its
sandbox root, with the 60-second default timeout. -/
theorem shelltool_run_checks_policy_witness :
    ((∃ e, (denyTool.run stubSubproc (ShellCommand.str "rm -rf /") 60).1 = Except.error e) ∧
     (denyTool.run stubSubproc (ShellCommand.str "rm -rf /") 60).2 = []) ∧
    (ExecutionPolicy.allowList ["git"]).is_allowed
      (shellCommandArgs (ShellCommand.str "git status")) = true ∧
    ((gitTool.run stubSubproc (ShellCommand.str "git status") 60).2
        = [{ args := ["git", "status"], cwd := ["home", "user", "proj"], timeout := 60 }]) := by
  refine ⟨(shelltool_run_checks_policy denyTool stubSubproc (ShellCommand.str "rm -rf /") 60).1
      (by decide), ?_, by decide⟩
  have h := (shelltool_run_checks_policy gitTool stubSubproc (ShellCommand.str "git status") 60).2
    { args := ["git", "status"], cwd := ["home", "user", "proj"], timeout := 60 }
    (by decide)
  exact h.1


theorem isPrefixOf_refl_bool {α : Type _} [BEq α] [LawfulBEq α] (l : List α) :
    l.isPrefixOf l = true := by
  have h := isPrefixOf_self_append l []
  simpa using h

/-- C4 (confirmed): `PlanExecutor.execute_step` is the total safe wrapper
around the dispatch logic: an exception escaping the logic is captured
and returned as a failed StepResult carrying an "Unhandled exception"
message; a step whose non-empty action kind is in no dispatch table
returns a failed StepResult whose error contains "Unknown action",
without throwing; and an empty-string action — which `if not action:`
treats as missing — returns the failed missing-field StepResult
instead. -/
theorem execute_step_never_raises (env : ExecEnv) (step : Step) :
    (∀ (e : String) (tr : List String),
      PlanExecutor.execute_step_logic env step = (Except.error e, tr) →
      (PlanExecutor.execute_step env step).1.status = "failed" ∧
      containsSub (PlanExecutor.execute_step env step).1.error "Unhandled exception" = true) ∧
    (∀ a : String, step.action = some a → a ≠ "" →
      a ∉ (["human_feedback", "modify_code", "verify_code", "run_command"] : List String) →
      (PlanExecutor.execute_step env step).1
        = { status := "failed", error := "Unknown action: " ++ a } ∧
      containsSub (PlanExecutor.execute_step env step).1.error "Unknown action" = true) ∧
    (step.action = some "" →
      (PlanExecutor.execute_step env step).1
        = { status := "failed", error := "Step is missing 'action' field." }) := by
  refine ⟨?_, ?_, ?_⟩
  · intro e tr h
    simp only [PlanExecutor.execute_step, h]
    refine ⟨by trivial, ?_⟩
    exact containsSub_string_append "Unhandled exception"
      "Unhandled exception in executor: " e (by decide)
  · intro a ha h0 hnot
    simp only [List.mem_cons, List.not_mem_nil, or_false] at hnot
    push_neg at hnot
    obtain ⟨h1, h2, h3, h4⟩ := hnot
    have hlogic : PlanExecutor.execute_step_logic env step
        = (Except.ok { status := "failed", error := "Unknown action: " ++ a }, []) := by
      simp only [PlanExecutor.execute_step_logic, ha]
      simp [h0, h1, h2, h3, h4]
    simp only [PlanExecutor.execute_step, hlogic]
    refine ⟨by trivial, ?_⟩
    exact containsSub_string_append "Unknown action" "Unknown action: " a (by decide)
  · intro ha
    have hlogic : PlanExecutor.execute_step_logic env step
        = (Except.ok { status := "failed",
                       error := "Step is missing 'action' field." }, []) := by
      simp only [PlanExecutor.execute_step_logic, ha]
      simp
    simp only [PlanExecutor.execute_step, hlogic]

/-- Witness for C4: a confirmation collaborator that raises is captured
as a failed result with an "Unhandled exception" error; the action kind
"bogus" yields a failed result whose error contains "Unknown action";
and the empty-string action yields the failed missing-field result. -/
theorem execute_step_never_raises_witness :
    ((PlanExecutor.execute_step throwingConfirmEnv feedbackStep).1.status = "failed" ∧
     containsSub (PlanExecutor.execute_step throwingConfirmEnv feedbackStep).1.error
       "Unhandled exception" = true) ∧
    ((PlanExecutor.execute_step stubEnv bogusStep).1
        = { status := "failed", error := "Unknown action: " ++ "bogus" } ∧
     containsSub (PlanExecutor.execute_step stubEnv bogusStep).1.error
       "Unknown action" = true) ∧
    ((PlanExecutor.execute_step stubEnv emptyActionStep).1
        = { status := "failed", error := "Step is missing 'action' field." }) := by
  refine ⟨(execute_step_never_raises throwingConfirmEnv feedbackStep).1 "stdin closed" [] rfl,
    ?_, ?_⟩
  · exact (execute_step_never_raises stubEnv bogusStep).2.1 "bogus" rfl (by decide) (by decide)
  · exact (execute_step_never_raises stubEnv emptyActionStep).2.2 rfl

/-- C5 (confirmed): `FilesTool._resolve` joins the relative path to the
root and canonicalizes it; it succeeds with exactly the canonical joined
path when that path is a descendant of (or equal to) the root, fails
with the path-escape error otherwise, and — for a canonical root —
resolves "." to the root itself and "sub/file.txt" to that file under
the root. -/
theorem sandbox_resolve_spec :
    (∀ root rel p : List String,
      FilesTool.resolve root rel = Except.ok p ↔
        (p = normalizePath (root ++ rel) ∧ root.isPrefixOf p = true)) ∧
    (∀ root rel : List String,
      FilesTool.resolve root rel = Except.error "Attempt to escape sandbox root" ↔
        root.isPrefixOf (normalizePath (root ++ rel)) = false) ∧
    (∀ root : List String, NormalizedPath root →
      FilesTool.resolve root (splitPath ".") = Except.ok root ∧
      FilesTool.resolve root (splitPath "sub/file.txt")
        = Except.ok (root ++ ["sub", "file.txt"])) := by
  refine ⟨?_, ?_, ?_⟩
  · intro root rel p
    unfold FilesTool.resolve
    by_cases h : root.isPrefixOf (normalizePath (root ++ rel)) = true
    · rw [if_pos h]
      constructor
      · intro he
        injection he with he
        exact ⟨he.symm, by rw [← he]; exact h⟩
      · rintro ⟨hp, _⟩
        rw [hp]
    · rw [if_neg h]
      constructor
      · intro he
        exact Except.noConfusion he
      · rintro ⟨hp, hpre⟩
        rw [hp] at hpre
        exact absurd hpre h
  · intro root rel
    unfold FilesTool.resolve
    by_cases h : root.isPrefixOf (normalizePath (root ++ rel)) = true
    · rw [if_pos h]
      constructor
      · intro he
        exact Except.noConfusion he
      · intro hf
        rw [h] at hf
        exact Bool.noConfusion hf
    · rw [if_neg h]
      simp only [Bool.not_eq_true] at h
      exact ⟨fun _ => h, fun _ => rfl⟩
  · intro root hroot
    unfold NormalizedPath at hroot
    have hfold : ∀ rel : List String,
        normalizePath (root ++ rel) = rel.foldl normalizeStep root := by
      intro rel
      unfold normalizePath
      rw [List.foldl_append]
      show rel.foldl normalizeStep (normalizePath root) = rel.foldl normalizeStep root
      rw [hroot]
    constructor
    · have hdot : splitPath "." = ["."] := by decide
      rw [hdot]
      unfold FilesTool.resolve
      have htarget : normalizePath (root ++ ["."]) = root := by
        rw [hfold]
        simp [List.foldl, normalizeStep]
      rw [htarget, if_pos (isPrefixOf_refl_bool root)]
    · have hsub : splitPath "sub/file.txt" = ["sub", "file.txt"] := by decide
      rw [hsub]
      unfold FilesTool.resolve
      have htarget : normalizePath (root ++ ["sub", "file.txt"])
          = root ++ ["sub", "file.txt"] := by
        rw [hfold]
        simp [List.foldl, normalizeStep]
      rw [htarget, if_pos (isPrefixOf_self_append root ["sub", "file.txt"])]

/-- Witness for C5 at the root /home/user: "." resolves to the root,
"sub/file.txt" resolves under it, and "../../etc/passwd" fails with the
path-escape error. -/
theorem sandbox_resolve_spec_witness :
    FilesTool.resolve ["home", "user"] (splitPath ".") = Except.ok ["home", "user"] ∧
    FilesTool.resolve ["home", "user"] (splitPath "sub/file.txt")
      = Except.ok (["home", "user"] ++ ["sub", "file.txt"]) ∧
    FilesTool.resolve ["home", "user"] (splitPath "../../etc/passwd")
      = Except.error "Attempt to escape sandbox root" := by
  have h := sandbox_resolve_spec.2.2 ["home", "user"] (by rfl)
  refine ⟨h.1, h.2, ?_⟩
  exact (sandbox_resolve_spec.2.1 ["home", "user"] (splitPath "../../etc/passwd")).2 (by decide)

/-- C6 (confirmed): `is_allowed` is a pure function of the policy and
the command; the allow-list policy accepts a non-empty command exactly
when its first token is in the configured set (and rejects the empty
command, which has no first token), so `AllowList({"git"})` accepts
["git", "status"] and rejects ["rm", "-rf", "/"]; the deny-all policy
rejects every command. -/
theorem policy_is_allowed_spec :
    (∀ (allowed : List String) (c : String) (rest : List String),
      (ExecutionPolicy.allowList allowed).is_allowed (c :: rest) = allowed.contains c) ∧
    (∀ allowed : List String, (ExecutionPolicy.allowList allowed).is_allowed [] = false) ∧
    ((ExecutionPolicy.allowList ["git"]).is_allowed ["git", "status"] = true) ∧
    ((ExecutionPolicy.allowList ["git"]).is_allowed ["rm", "-rf", "/"] = false) ∧
    (∀ command : List String, ExecutionPolicy.denyAll.is_allowed command = false) := by
  refine ⟨fun _ _ _ => rfl, fun _ => rfl, by decide, by decide, fun _ => rfl⟩

theorem wfEvents_all_agentFinished :
    ∀ (tail : List Event) (ann st : List Nat),
      (∀ e ∈ tail, isAgentFinished e = true) → wfEvents ann st tail = true := by
  intro tail
  induction tail with
  | nil => intro ann st _; rfl
  | cons e rest ih =>
    intro ann st h
    have he := h e (by simp)
    cases e with
    | agentFinished s err =>
      show wfEvents ann st (Event.agentFinished s err :: rest) = true
      rw [wfEvents]
      exact ih ann st (fun x hx => h x (by simp [hx]))
    | newStep s => simp [isAgentFinished] at he
    | stepStarted id => simp [isAgentFinished] at he
    | stepFinished id s err => simp [isAgentFinished] at he

theorem wfEvents_append_agentFinished :
    ∀ (l : List Event) (ann st : List Nat) (tail : List Event),
      (∀ e ∈ tail, isAgentFinished e = true) →
      wfEvents ann st l = true → wfEvents ann st (l ++ tail) = true := by
  intro l
  induction l with
  | nil =>
    intro ann st tail htail _
    rw [List.nil_append]
    exact wfEvents_all_agentFinished tail ann st htail
  | cons e rest ih =>
    intro ann st tail htail hwf
    cases e with
    | newStep s =>
      rw [List.cons_append, wfEvents]
      rw [wfEvents] at hwf
      exact ih _ _ tail htail hwf
    | stepStarted id =>
      rw [List.cons_append, wfEvents]
      rw [wfEvents] at hwf
      rw [Bool.and_eq_true] at hwf ⊢
      exact ⟨hwf.1, ih _ _ tail htail hwf.2⟩
    | stepFinished id s err =>
      rw [List.cons_append, wfEvents]
      rw [wfEvents] at hwf
      simp only [Bool.and_eq_true] at hwf ⊢
      exact ⟨hwf.1, ih _ _ tail htail hwf.2⟩
    | agentFinished s err =>
      rw [List.cons_append, wfEvents]
      rw [wfEvents] at hwf
      exact ih _ _ tail htail hwf

theorem agentLoop_wf (env : ExecEnv) :
    ∀ (oracle : List GatewayResult) (p : PlannerState) (ann st : List Nat),
      wfEvents ann st (agentLoop env p oracle).events = true := by
  intro oracle
  induction oracle with
  | nil => intro p ann st; rfl
  | cons entry rest ih =>
    intro p ann st
    rw [agentLoop.eq_def]
    by_cases hc : p.task_complete = true
    · simp [hc]
      rfl
    · simp only [Bool.not_eq_true] at hc
      simp only [hc, Bool.false_eq_true, if_false]
      cases entry with
      | error e => rfl
      | ok o =>
        cases o with
        | none => rfl
        | some resp =>
          by_cases hf : resp.action = some "finish_task"
          · simp [hf]
            rfl
          · simp only [hf, if_false]
            split
            · simp only [LoopResult.events]
              simp only [List.cons_append, List.nil_append]
              simp [wfEvents, List.contains_cons]
              exact ih _ _ _
            · simp only [LoopResult.events]
              simp [wfEvents, List.contains_cons]

/-- C7 (confirmed): in every run of the worker loop, every step id
appearing in a `STEP_STARTED` or `STEP_FINISHED` event of the emitted
stream was previously announced by a `NEW_STEP` event with the same id,
and every `STEP_FINISHED` is preceded by a matching `STEP_STARTED` for
that id — for every collaborator environment and every decision-source
behavior. -/
theorem event_stream_ids_announced (env : ExecEnv) (oracle : List GatewayResult) :
    wfEvents [] [] (run_agent_in_thread env oracle).1 = true := by
  have hmain := agentLoop_wf env oracle initialPlannerState [] []
  simp only [run_agent_in_thread]
  cases hexc : (agentLoop env initialPlannerState oracle).exc with
  | none =>
    simp only [hexc]
    apply wfEvents_append_agentFinished _ _ _ _ _ hmain
    intro e he
    simp only [List.mem_singleton] at he
    subst he
    rfl
  | some e =>
    simp only [hexc]
    apply wfEvents_append_agentFinished _ _ _ _ _ hmain
    intro x hx
    simp only [List.mem_cons, List.not_mem_nil, or_false] at hx
    rcases hx with h | h
    · subst h
      rfl
    · subst h
      rfl

/-- C8 (confirmed, step lifecycle spec-modelled): for every machine and
target name, when `can_transition` rejects (no configured transition
from the current state to the target, or its guard fails) `transition`
raises and leaves the current state unchanged; and in the step-lifecycle
configuration no transition leads out of the terminal states "succeeded"
and "failed", so every transition attempt from them is rejected. -/
theorem fsm_invalid_transition_safe :
    (∀ (m : FiniteStateMachine) (target : String),
      m.can_transition target = false →
        (m.transition target).1 = m ∧ ∃ e, (m.transition target).2 = Except.error e) ∧
    (∀ target : String, (stepLifecycleAt succeededState).can_transition target = false) ∧
    (∀ target : String, (stepLifecycleAt failedState).can_transition target = false) := by
  refine ⟨?_, ?_, ?_⟩
  · intro m target h
    unfold FiniteStateMachine.transition
    rw [h]
    simp only [Bool.false_eq_true, if_false]
    exact ⟨trivial, _, rfl⟩
  · intro target
    rfl
  · intro target
    rfl

/-- Witness for C8: attempting `transition("running")` on the lifecycle
machine in state "succeeded" raises and leaves the machine unchanged. -/
theorem fsm_invalid_transition_safe_witness :
    ((stepLifecycleAt succeededState).transition "running").1 = stepLifecycleAt succeededState ∧
    (∃ e, ((stepLifecycleAt succeededState).transition "running").2 = Except.error e) := by
  exact fsm_invalid_transition_safe.1 (stepLifecycleAt succeededState) "running"
    (fsm_invalid_transition_safe.2.1 "running")

/-- C9 (confirmed): for a human-feedback step, a confirmation
collaborator answering false yields a failed StepResult whose error
contains "cancelled" (the code's message is "Operation cancelled by
user"), and answering true yields a succeeded StepResult. -/
theorem human_feedback_step_result (env : ExecEnv) (step : Step)
    (ha : step.action = some "human_feedback") :
    (env.request_confirmation (questionOf step) = Except.ok false →
      (PlanExecutor.execute_step env step).1.status = "failed" ∧
      containsSub (PlanExecutor.execute_step env step).1.error "cancelled" = true) ∧
    (env.request_confirmation (questionOf step) = Except.ok true →
      (PlanExecutor.execute_step env step).1 = { status := "succeeded" }) := by
  constructor
  · intro hconf
    have hlogic : PlanExecutor.execute_step_logic env step
        = (Except.ok { status := "failed", error := "Operation cancelled by user" }, []) := by
      simp only [PlanExecutor.execute_step_logic, ha]
      simp [hconf]
    simp only [PlanExecutor.execute_step, hlogic]
    exact ⟨by trivial, by decide⟩
  · intro hconf
    have hlogic : PlanExecutor.execute_step_logic env step
        = (Except.ok { status := "succeeded" }, []) := by
      simp only [PlanExecutor.execute_step_logic, ha]
      simp [hconf]
    simp only [PlanExecutor.execute_step, hlogic]

/-- Witness for C9: with a declining collaborator the feedback step
fails with a "cancelled" error; with an accepting one it succeeds. -/
theorem human_feedback_step_result_witness :
    ((PlanExecutor.execute_step declineEnv feedbackStep).1.status = "failed" ∧
     containsSub (PlanExecutor.execute_step declineEnv feedbackStep).1.error "cancelled" = true) ∧
    (PlanExecutor.execute_step stubEnv feedbackStep).1 = { status := "succeeded" } := by
  exact ⟨(human_feedback_step_result declineEnv feedbackStep rfl).1 rfl,
         (human_feedback_step_result stubEnv feedbackStep rfl).2 rfl⟩

/-- C10 (confirmed): when SMITH_AUTO_CONFIRM is set to any value whose
lowercase form is not "false", `request_confirmation` returns True for
every prompt without consulting the operator input; when it is set to
"false" (case-insensitively) it returns False for every prompt; the tool
is interactive only when the variable is unset (and no override is
passed), and then an unreadable input defaults to False. -/
theorem auto_confirm_env_behavior (v : String) (a : Option Bool) (prompt : String)
    (inp : Except Unit String) :
    (strLower v ≠ "false" →
      (HumanFeedbackTool.init (some v) a).request_confirmation prompt inp = true) ∧
    (strLower v = "false" →
      (HumanFeedbackTool.init (some v) a).request_confirmation prompt inp = false) ∧
    ((HumanFeedbackTool.init (some v) a).interactive = false) ∧
    ((HumanFeedbackTool.init none none).interactive = true) ∧
    ((HumanFeedbackTool.init none none).request_confirmation prompt (Except.error ()) = false) := by
  refine ⟨?_, ?_, rfl, rfl, rfl⟩
  · intro h
    simp [HumanFeedbackTool.init, HumanFeedbackTool.request_confirmation, h]
  · intro h
    simp [HumanFeedbackTool.init, HumanFeedbackTool.request_confirmation, h]

/-- Witness for C10: SMITH_AUTO_CONFIRM="1" auto-accepts and
SMITH_AUTO_CONFIRM="False" auto-declines, both without reading input
(the input oracle here raises, and is never consulted). -/
theorem auto_confirm_env_behavior_witness :
    (HumanFeedbackTool.init (some "1") none).request_confirmation "Proceed?"
      (Except.error ()) = true ∧
    (HumanFeedbackTool.init (some "False") none).request_confirmation "Proceed?"
      (Except.error ()) = false := by
  exact ⟨(auto_confirm_env_behavior "1" none "Proceed?" (Except.error ())).1 (by decide),
         (auto_confirm_env_behavior "False" none "Proceed?" (Except.error ())).2.1 (by decide)⟩
